import Mathlib

unseal Rat.add Rat.sub Rat.mul Rat.inv Rat.ofScientific

/-!
Verification of the brokerage-flow / quant-signal classification engine of the
stock_dashboard repository (src/backend/app.py).

The Python code is shallowly embedded: machine floats are modelled as exact
rationals (`ℚ`), Python dicts of fixed string keys become Lean structures,
`if/elif` chains become nested `if`-expressions, and Python's stable
`list.sort` becomes a stable insertion sort.  Strings are copied verbatim from
the source file (including its mojibake byte sequences).
-/

namespace StockDashboard

/-! ## Brokerage Flow Classifier (`detect_brokerage_flow`, app.py lines 2187-2300) -/

/-- One cohort entry of the broker-flow dict: `{"status": ..., "desc": ...}`. -/
structure CohortInfo where
  status : String
  desc : String
deriving DecidableEq, Repr

/-- The dict returned by `detect_brokerage_flow`. -/
structure BrokerFlow where
  phase : String
  overall_sentiment : String
  confidence : ℕ
  quant_warning : String
  groups : CohortInfo
  whale : CohortInfo
  retail : CohortInfo
deriving DecidableEq, Repr

/-- The five locals chosen by the phase-detection `if/elif` chain. -/
structure PhaseInfo where
  phase : String
  overall : String
  confidence : ℕ
  warning : String
  groups_desc : String
deriving DecidableEq, Repr

/-- Round to the nearest integer, ties to even — the rounding used by Python's
`format(x, '.1f')` (modelled on exact rationals). -/
def roundHalfEven (x : ℚ) : ℤ :=
  let f := ⌊x⌋
  if x - f < 1/2 then f
  else if x - f > 1/2 then f + 1
  else if 2 ∣ f then f else f + 1

/-- Decimal string of a nonneg integer number of tenths, e.g. `34 ↦ "3.4"`. -/
def fixed1OfNonneg (m : ℤ) : String :=
  toString (m / 10) ++ "." ++ toString (m % 10)

/-- Model of the Python f-string conversion `f"{q:.1f}"` on exact rationals. -/
def ratFixed1 (q : ℚ) : String :=
  let n := roundHalfEven (q * 10)
  if n < 0 then "-" ++ fixed1OfNonneg (-n) else fixed1OfNonneg n

/-- The `if/elif` phase-detection chain of `detect_brokerage_flow`
(app.py lines 2203-2258): first matching rule wins. -/
def phaseDetect (change vol_ratio : ℚ) : PhaseInfo :=
  if vol_ratio > 3.0 then
    ⟨"TRANSAKSI JUMBO / BLOCK TRADE", "STRONG BULLISH", 95,
     "TRANSAKSI JUMBO TERDETEKSI ‚Äì Crossing besar atau akumulasi masif whale",
     "Volume spike ekstrim " ++ ratFixed1 vol_ratio ++ "x normal. Indikasi strategic move / backdoor listing."⟩
  else if change > 7.0 ∧ vol_ratio > 1.8 then
    ⟨"MEGALODON MARKUP", "EXTREME BULLISH", 92,
     "Hati-hati Jebakan Bandar ‚Äì harga naik gila tapi volume ekstrem (kemungkinan pump & dump)",
     "Pembelian institusi sangat agresif (deviasi VWAP besar)."⟩
  else if change > 3.5 ∧ vol_ratio > 1.4 then
    ⟨"STRONG MARKUP", "BULLISH", 88,
     "Accumulation Phase Aman ‚Äì whale masih beli agresif",
     "Antrian beli institusi terlihat kuat."⟩
  else if change > 1.2 ∧ vol_ratio > 1.1 then
    ⟨"MARKUP", "MODERATE BULLISH", 75,
     "Smart Money Entry Zone ‚Äì institusi mulai akumulasi",
     "Institusi masuk bertahap."⟩
  else if change > -1.2 ∧ change < 1.2 ∧ vol_ratio < 0.85 then
    ⟨"SILENT ACCUMULATION", "NEUTRAL BULLISH", 82,
     "AKUMULASI SENYAP ‚Äì Iceberg order terdeteksi, whale kumpul diam-diam",
     "Akumulasi senyap oleh smart money."⟩
  else if change < -1.5 ∧ vol_ratio > 1.5 then
    ⟨"DISTRIBUTION", "BEARISH", 85,
     "Bandar Trap terdeteksi ‚Äì distribusi terselubung oleh institusi",
     "Distribusi oleh institusi."⟩
  else if change < -4.0 ∧ vol_ratio > 1.7 then
    ⟨"CAPITULATION / MARKDOWN", "EXTREME BEARISH", 90,
     "Bull Trap risiko tinggi ‚Äì harga jatuh dengan volume monster (retail panic)",
     "Kapitulasi ritel, tekanan jual ekstrem."⟩
  else
    ⟨"CONSOLIDATION", "NEUTRAL", 68,
     "WAIT AND SEE ‚Äì pasar sedang ranging, tidak ada dominasi jelas",
     "Pasar berkonsolidasi."⟩

/-- The `status_map` dict lookup with default `"INSTITUSI / SMART MONEY"`
(app.py lines 2262-2271). -/
def statusMap (phase : String) : String :=
  if phase = "TRANSAKSI JUMBO / BLOCK TRADE" then "TRANSAKSI JUMBO"
  else if phase = "MEGALODON MARKUP" then "SMART MONEY MASUK"
  else if phase = "STRONG MARKUP" then "SMART MONEY MASUK"
  else if phase = "MARKUP" then "DUKUNGAN INSTITUSI"
  else if phase = "SILENT ACCUMULATION" then "AKUMULASI SENYAP"
  else if phase = "DISTRIBUTION" then "SMART MONEY KELUAR"
  else if phase = "CAPITULATION / MARKDOWN" then "KAPITULASI (PANIC)"
  else if phase = "CONSOLIDATION" then "WAIT AND SEE"
  else "INSTITUSI / SMART MONEY"

/-- `detect_brokerage_flow(current_change, volume_ratio, vwap_deviation)`
(app.py lines 2187-2300).  `abs(change)` is written out as a conditional;
the `vwap_deviation` parameter is, as in the source, never read. -/
def detect_brokerage_flow (current_change : ℚ) ( volume_ratio : ℚ := 1.0)
    (vwap_deviation : ℚ := 0.0) : BrokerFlow :=
  let change := current_change
  let vol_ratio := volume_ratio
  let _ := vwap_deviation
  let pi := phaseDetect change vol_ratio
  { phase := pi.phase
    overall_sentiment := pi.overall
    confidence := pi.confidence
    quant_warning := pi.warning
    groups := ⟨statusMap pi.phase, pi.groups_desc⟩
    whale :=
      ⟨if change > 3.5 ∨ pi.phase = "TRANSAKSI JUMBO / BLOCK TRADE" then "MEGALODON / WHALE ENTRY"
        else if (if change < 0 then -change else change) < 1.5 ∧ vol_ratio < 0.9 then "WHALE ACCUMULATION"
        else if change < -3.0 then "WHALE DISTRIBUTION"
        else "WHALE NEUTRAL",
       if change > 0 ∨ pi.phase = "TRANSAKSI JUMBO / BLOCK TRADE" then
         "Block trade & iceberg order aktif menyerap supply"
       else "Algo HFT & Market Maker memicu stop loss ritel"⟩
    retail :=
      ⟨if change > 4.0 ∧ vol_ratio > 1.6 then "RITEL FOMO"
        else if change < -4.0 then "RITEL KAPITULASI"
        else "RITEL BOSAN / WAIT AND SEE",
       if change > 3.5 then "Partisipasi ritel melonjak (FOMO)"
       else "Panic selling ritel sedang terjadi"⟩ }

/-! ## Quant Warning Generator (`generate_quant_warning`, app.py lines 812-923) -/

/-- One appended warning dict (the output of `_append_detail`). -/
structure WarnEntry where
  level : String
  message : String
  color : String
  icon : String
  brokers : List String
deriving DecidableEq, Repr

/-- The dict returned by `generate_quant_warning`.  The optional `secondary`
key of the Python dict is modelled as a list that is empty when the key is
absent. -/
structure QuantWarning where
  level : String
  message : String
  color : String
  icon : String
  brokers : List String
  details : List WarnEntry
  secondary : List String
deriving DecidableEq, Repr

/-- The `priority_map` lookup `{"danger": 0, "warning": 1, "success": 2,
"primary": 3}` with default `999` used as the sort key. -/
def priorityOf (e : WarnEntry) : ℕ :=
  if e.color = "danger" then 0
  else if e.color = "warning" then 1
  else if e.color = "success" then 2
  else if e.color = "primary" then 3
  else 999

/-- Stable insertion into a list already sorted by `key`: an element inserted
is placed before the first element of equal or larger key, which matches the
stability guarantee of Python's `list.sort`. -/
def insertRanked {α : Type} (key : α → ℕ) (x : α) : List α → List α
  | [] => [x]
  | y :: ys => if key x ≤ key y then x :: y :: ys else y :: insertRanked key x ys

/-- Stable sort by `key`: the model of Python's stable `list.sort(key=...)`. -/
def sortRanked {α : Type} (key : α → ℕ) : List α → List α
  | [] => []
  | x :: xs => insertRanked key x (sortRanked key xs)

/-- `_get_brokers(kind)`: look the kind up in the optional broker-activity
map; a missing map or missing/empty entry yields `[]`. -/
def getBrokers (broker_activity : List (String × List String)) (kind : String) : List String :=
  (broker_activity.lookup kind).getD []

/-- `_append_detail`: build the warning dict for one fired rule, attaching the
broker codes inline to the message. -/
def mkDetail (broker_activity : List (String × List String))
    (kind level message color icon : String) : WarnEntry :=
  let brokers := getBrokers broker_activity kind
  ⟨level,
   message ++ (if brokers.isEmpty then "" else " | Brokers: " ++ String.intercalate ", " brokers),
   color, icon, brokers⟩

/-- The `details` list built by the five rule groups of
`generate_quant_warning`, in the order the source appends them
(return band, volume, RSI, foreign flow, sentiment, volatility). -/
def quantDetails (expected_return : ℚ) ( volume_ratio : ℚ) (rsi : ℚ)
    (foreign_net_buy : ℚ) (sentiment_score : ℚ) ( atr_ratio : ℚ)
    (broker_activity : List (String × List String)) : List WarnEntry :=
  let mk := mkDetail broker_activity
  (if expected_return > 40 then
      [mk "return" "EXTREME BULLISH" "Waspadai Bull Trap ‚Äì potensi pump & dump tinggi" "danger" "[WARN]"]
    else if expected_return > 20 then
      [mk "return" "STRONG BULLISH" "Momentum kuat ‚Äì konfirmasi dengan volume" "success" "üìà"]
    else if expected_return > 8 then
      [mk "return" "MODERATE BULLISH" "Potensi upside sedang ‚Äì monitor breakout" "primary" "‚Üë"]
    else if expected_return < -40 then
      [mk "return" "EXTREME BEARISH" "Capitulation tinggi ‚Äì risiko crash lanjutan" "danger" "üí•"]
    else if expected_return < -20 then
      [mk "return" "STRONG BEARISH" "Tekanan jual dominan ‚Äì waspadai stop-loss cascade" "warning" "üìâ"]
    else if expected_return < -8 then
      [mk "return" "MODERATE BEARISH" "Koreksi sedang ‚Äì potensi rebound jika volume naik" "warning" "‚Üì"]
    else []) ++
  (if volume_ratio > 3.0 then
      [mk "volume" "MEGA VOLUME / BLOCK TRADE" "Deteksi Volume Monster ‚Äì indikasi strategic move atau corporate action" "success" "üêã"]
    else if volume_ratio > 2.0 ∧ expected_return > 15 then
      [mk "volume" "VOLUME CONFIRMED" "Volume monster ‚Äì momentum real, bukan fake breakout" "success" "üî•"]
    else if volume_ratio > 1.5 ∧ expected_return < -10 then
      [mk "volume" "HIGH VOLUME SELL-OFF" "Panic selling ritel ‚Äì kemungkinan capitulation bottom" "warning" "üåä"]
    else if volume_ratio < 0.7 ∧ (if expected_return < 0 then -expected_return else expected_return) > 10 then
      [mk "volume" "LOW VOLUME MOVE" "Hati-hati Jebakan Bandar ‚Äì harga gerak tanpa volume konfirmasi" "danger" "ü™§"]
    else []) ++
  (if rsi > 75 ∧ expected_return > 0 then
      [mk "rsi" "RSI OVERBOUGHT" "Overbought ‚Äì risiko koreksi tajam meski forecast bullish" "warning" "üî¥"]
    else if rsi < 25 ∧ expected_return < 0 then
      [mk "rsi" "RSI OVERSOLD" "Oversold ‚Äì potensi rebound kuat jika ada buyer masuk" "success" "üü¢"]
    else []) ++
  (if foreign_net_buy > 100 then
      [mk "foreign" "FOREIGN NET BUY KUAT" "Smart Money masuk ‚Äì akumulasi whale asing" "success" "üåç"]
    else if foreign_net_buy < -100 then
      [mk "foreign" "FOREIGN NET SELL" "Asing keluar ‚Äì distribusi terselubung kemungkinan besar" "danger" "üö™"]
    else []) ++
  (if sentiment_score > 0.6 then
      [mk "sentiment" "SENTIMEN SANGAT POSITIF" "FOMO tinggi ‚Äì waspadai over-hype" "success" "‚ù§"]
    else if sentiment_score < -0.6 then
      [mk "sentiment" "SENTIMEN SANGAT NEGATIF" "Panic tinggi ‚Äì potensi capitulation bottom" "warning" "üò±"]
    else []) ++
  (if atr_ratio > 1.8 then
      [mk "volatility" "VOLATILITAS EKSTREM" "ATR melonjak ‚Äì risiko swing besar, hindari leverage" "danger" "üå™Ô∏è"]
    else [])

/-- The NEUTRAL fallback dict returned when no rule fires. -/
def neutralWarning : QuantWarning :=
  ⟨"NEUTRAL", "Pasar ranging ‚Äì tidak ada sinyal kuat", "secondary", "‚ûñ", [], [], []⟩

/-- `generate_quant_warning(expected_return, volume_ratio, rsi,
foreign_net_buy, sentiment_score, atr_ratio, broker_activity)`
(app.py lines 812-923): collect the fired rules, stable-sort them by the
severity priority, return the first as the main warning together with up to 5
detail entries and up to 2 secondary messages. -/
def generate_quant_warning (expected_return : ℚ) ( volume_ratio : ℚ := 1.0)
    (rsi : ℚ := 50.0) (foreign_net_buy : ℚ := 0.0) (sentiment_score : ℚ := 0.0)
    ( atr_ratio : ℚ := 1.0)
    (broker_activity : List (String × List String) := []) : QuantWarning :=
  if (quantDetails expected_return volume_ratio rsi foreign_net_buy
      sentiment_score atr_ratio broker_activity).isEmpty then neutralWarning
  else
    match sortRanked priorityOf (quantDetails expected_return volume_ratio rsi
      foreign_net_buy sentiment_score atr_ratio broker_activity) with
    | [] => neutralWarning   -- unreachable: the stable sort of a nonempty list is nonempty
    | m :: rest =>
      ⟨m.level, m.message, m.color, m.icon, m.brokers,
       (m :: rest).take 5,
       if rest.isEmpty then []
       else (rest.take 2).map (fun d => d.icon ++ " " ++ d.message)⟩

/-! ## Trend/Sentiment Blender (inline in `get_full_analysis`, app.py lines 1683-1717) -/

/-- The blended result `{label, bullish_pct, bearish_pct}`. -/
structure BlendResult where
  label : String
  bullish_pct : ℚ
  bearish_pct : ℚ
deriving DecidableEq, Repr

/-- The label thresholds of app.py lines 1714-1716. -/
def labelOf (bullish_pct : ℚ) : String :=
  if bullish_pct ≥ 60 then "Bullish"
  else if bullish_pct ≤ 40 then "Bearish"
  else "Neutral"

/-- The Flow Analysis Override of app.py lines 1683-1690, keyed on
`broker_flow['groups']['status']`. -/
def flowOverride (prob_up : ℚ) (group_status : String) : ℚ :=
  if group_status ∈ ["SMART MONEY MASUK", "AKUMULASI SENYAP", "DUKUNGAN INSTITUSI", "TRANSAKSI JUMBO"] then
    if group_status = "TRANSAKSI JUMBO" then max (prob_up + 25) 70 else max (prob_up + 20) 65
  else if group_status ∈ ["KAPITULASI (PANIC)", "WAIT AND SEE", "DANA BESAR KELUAR", "SMART MONEY KELUAR"] then
    min (prob_up - 20) 40
  else prob_up

/-- `blend_sentiment`: the sentiment-blending tail of `get_full_analysis`
(app.py lines 1683-1717), extracted over its three inputs: the raw ML bullish
probability, the group status from `detect_brokerage_flow`, and whether a
high-impact news catalyst was detected. -/
def blend_sentiment (prob_up : ℚ) (group_status : String) (has_catalyst : Bool) : BlendResult :=
  let p1 := flowOverride prob_up group_status
  let p2 := if has_catalyst then max p1 85 else p1
  let final_bullish := min (max p2 5) 98
  ⟨labelOf final_bullish, final_bullish, 100 - final_bullish⟩

/-! ## News sentiment (`_get_news_sentiment_score`, app.py lines 1262-1311) -/

/-- Character-list check that `needle` occurs at the start of `hay`. -/
def startsWithCL : List Char → List Char → Bool
  | [], _ => true
  | _ :: _, [] => false
  | a :: as, b :: bs => a == b && startsWithCL as bs

/-- Character-list substring check: the model of Python's `needle in hay`. -/
def containsCL (needle : List Char) : List Char → Bool
  | [] => needle.isEmpty
  | b :: bs => startsWithCL needle (b :: bs) || containsCL needle bs

/-- Model of the Python test `kw in title.lower()` (the keywords of the source
are already lower-case). -/
def kwInTitle (kw title : String) : Bool :=
  containsCL kw.toList (title.toList.map Char.toLower)

/-- The `bullish_keywords` list of `_get_news_sentiment_score`. -/
def bullishKeywords : List String :=
  ["breakout", "golden cross", "bullish", "akumulasi", "strong buy", "uptrend",
   "laba naik", "dividen", "undervalued", "ekspansi", "akuisisi", "cuan", "optimis",
   "volume naik", "support kuat", "prospek cerah", "rebound", "backdoor listing",
   "merger", "aliansi strategis", "transaksi jumbo", "crossing saham",
   "investor strategis", "pengendali baru", "laba melonjak", "right issue"]

/-- The `bearish_keywords` list of `_get_news_sentiment_score`. -/
def bearishKeywords : List String :=
  ["death cross", "bearish", "distribusi", "sell signal", "downtrend",
   "laba turun", "rugi", "overvalued", "mahal", "boncos", "pesimis", "gagal",
   "volume turun", "resisten kuat", "koreksi", "suspend", "delisting",
   "wanprestasi", "gagal bayar", "pkpu", "praperadilan"]

/-- The high-impact catalyst keywords of `_get_news_sentiment_score`. -/
def highImpactKeywords : List String :=
  ["backdoor listing", "merger", "transaksi jumbo", "pengendali baru"]

/-- `_get_news_sentiment_score`, modelled over the already-fetched headline
titles (app.py lines 1262-1311): scan the 10 most recent titles, count
keyword hits, compute the count-based score, then force it to at least 85
when a high-impact keyword occurred.  Returns `(news_score, high_impact)`. -/
def newsSentimentScore (titles : List String) : ℚ × Bool :=
  let items := titles.take 10
  let high_impact := items.any (fun t => highImpactKeywords.any (fun k => kwInTitle k t))
  let bullish_count := (items.map (fun t => bullishKeywords.countP (fun k => kwInTitle k t))).sum
  let bearish_count := (items.map (fun t => bearishKeywords.countP (fun k => kwInTitle k t))).sum
  let total := bullish_count + bearish_count
  let news_score : ℚ :=
    if total > 0 then ((bullish_count : ℚ) - (bearish_count : ℚ)) / (total : ℚ) * 100 else 0
  (if high_impact then max news_score 85 else news_score, high_impact)

/-! ## RSI (14-period), as computed in `forecast_advanced` (app.py lines
969-975) and identically in `BlackRockStockForecaster.prepare_data`
(app.py lines 694-700). -/

/-- `df['close'].pct_change().fillna(0)`: the first delta is 0, delta `i`
is `(c_i − c_{i−1}) / c_{i−1}`. -/
def pct_change : List ℚ → List ℚ
  | [] => []
  | c :: rest => 0 :: (List.zipWith (fun prev cur => (cur - prev) / prev) (c :: rest) rest)

/-- The last value of the `rsi` column of
`df['rsi'] = 100 - (100 / (1 + rs)).fillna(50)` where
`rs = gain/loss.replace(0, np.nan)` and `gain`/`loss` are the 14-period
rolling means of the positive/negative parts of the deltas: whenever the
rolling means are unavailable (fewer than 14 rows) or the loss mean is zero
(replaced by NaN), `rs` is NaN and the fillna turns the RSI into
`100 − 50 = 50`. -/
def rsi_last (closes : List ℚ) : ℚ :=
  let deltas := pct_change closes
  if deltas.length < 14 then 50
  else
    let window := deltas.drop (deltas.length - 14)
    let gain_mean := (window.map (fun d => if d > 0 then d else 0)).sum / 14
    let loss_mean := (window.map (fun d => if d < 0 then -d else 0)).sum / 14
    if loss_mean = 0 then 50
    else 100 - 100 / (1 + gain_mean / loss_mean)

/-! ## Spec-side definitions

These follow the wording of the specification rather than the source, for the
refinement-style claims that compare the two. -/

/-- Spec-side selection rule for the main warning: the entry of minimal key,
ties broken in favour of the earlier (first-appended) entry. -/
def firstMinByRank {α : Type} (key : α → ℕ) : List α → Option α
  | [] => none
  | x :: xs =>
    match firstMinByRank key xs with
    | none => some x
    | some m => some (if key x ≤ key m then x else m)

/-- Spec-side flow override, following the claim's wording: jumbo transaction
uses `max(prob_up + 25, 70)`, the other three bullish statuses use
`max(prob_up + 20, 65)`, the four bearish statuses use
`min(prob_up − 20, 40)`, anything else leaves the probability unchanged. -/
def flowOverrideSpec (prob_up : ℚ) (group_status : String) : ℚ :=
  if group_status = "TRANSAKSI JUMBO" then max (prob_up + 25) 70
  else if group_status = "SMART MONEY MASUK" ∨ group_status = "AKUMULASI SENYAP" ∨
      group_status = "DUKUNGAN INSTITUSI" then max (prob_up + 20) 65
  else if group_status = "KAPITULASI (PANIC)" ∨ group_status = "WAIT AND SEE" ∨
      group_status = "DANA BESAR KELUAR" ∨ group_status = "SMART MONEY KELUAR" then
    min (prob_up - 20) 40
  else prob_up

/-- Spec-side blender, following the claim's step order: flow override, then
the catalyst floor `max(prob_up, 85)`, then the clamp to `[5, 98]`, then the
label thresholds. -/
def blendSentimentSpec (prob_up : ℚ) (group_status : String) (has_catalyst : Bool) : BlendResult :=
  let afterFlow := flowOverrideSpec prob_up group_status
  let afterCatalyst := if has_catalyst then max afterFlow 85 else afterFlow
  let clamped := min (max afterCatalyst 5) 98
  ⟨if clamped ≥ 60 then "Bullish" else if clamped ≤ 40 then "Bearish" else "Neutral",
   clamped, 100 - clamped⟩

/-- The main-warning fields of a `QuantWarning`, as a `WarnEntry`. -/
def mainEntryOf (w : QuantWarning) : WarnEntry :=
  ⟨w.level, w.message, w.color, w.icon, w.brokers⟩

/-- The concrete 15-bar close sequence used to test the degenerate RSI case:
thirteen flat sessions followed by one gain, so the last 14 deltas contain a
gain and no loss. -/
def rsiGainOnlyCloses : List ℚ :=
  [1, 1, 1, 1, 1, 1, 1, 1, 1, 1, 1, 1, 1, 1, 2]

theorem firstMinByRank_eq_none_iff {α : Type} (key : α → ℕ) (l : List α) :
    firstMinByRank key l = none ↔ l = [] := by
  cases l with
  | nil => simp [firstMinByRank]
  | cons x xs =>
    simp only [firstMinByRank]
    cases firstMinByRank key xs <;> simp

theorem firstMinByRank_mem {α : Type} (key : α → ℕ) (l : List α) (m : α)
    (h : firstMinByRank key l = some m) : m ∈ l := by
  induction l generalizing m with
  | nil => simp [firstMinByRank] at h
  | cons x xs ih =>
    simp only [firstMinByRank] at h
    cases hf : firstMinByRank key xs with
    | none =>
      rw [hf] at h
      simp only [Option.some.injEq] at h
      exact h ▸ List.mem_cons_self x xs
    | some mm =>
      rw [hf] at h
      simp only [Option.some.injEq] at h
      split_ifs at h
      · exact h ▸ List.mem_cons_self x xs
      · exact List.mem_cons_of_mem x (h ▸ ih mm hf)

/-- The selected entry has minimal key among all entries of the list. -/
theorem firstMinByRank_le {α : Type} (key : α → ℕ) (l : List α) (m : α)
    (h : firstMinByRank key l = some m) : ∀ b ∈ l, key m ≤ key b := by
  induction l generalizing m with
  | nil => simp [firstMinByRank] at h
  | cons x xs ih =>
    simp only [firstMinByRank] at h
    cases hf : firstMinByRank key xs with
    | none =>
      rw [hf] at h
      simp only [Option.some.injEq] at h
      intro b hb
      rcases List.mem_cons.mp hb with hb | hb
      · exact h ▸ hb ▸ le_refl _
      · exact absurd ((firstMinByRank_eq_none_iff key xs).mp hf ▸ hb) (List.not_mem_nil b)
    | some mm =>
      rw [hf] at h
      simp only [Option.some.injEq] at h
      intro b hb
      rcases List.mem_cons.mp hb with hb | hb
      · subst hb
        split_ifs at h with hxm
        · exact h ▸ le_refl _
        · exact h ▸ le_of_not_le hxm
      · split_ifs at h with hxm
        · exact h ▸ le_trans hxm (ih mm hf b hb)
        · exact h ▸ ih mm hf b hb

/-! ## Helper lemmas -/

theorem insertRanked_ne_nil {α : Type} (key : α → ℕ) (x : α) (l : List α) :
    insertRanked key x l ≠ [] := by
  cases l with
  | nil => simp [insertRanked]
  | cons y ys =>
    simp only [insertRanked]
    split <;> simp

theorem sortRanked_eq_nil_iff {α : Type} (key : α → ℕ) (l : List α) :
    sortRanked key l = [] ↔ l = [] := by
  cases l with
  | nil => simp [sortRanked]
  | cons x xs =>
    simp only [sortRanked]
    exact ⟨fun h => absurd h (insertRanked_ne_nil key x _), fun h => absurd h (by simp)⟩

/-- The head of the stable sort is the first entry of minimal key. -/
theorem head?_sortRanked {α : Type} (key : α → ℕ) (l : List α) :
    (sortRanked key l).head? = firstMinByRank key l := by
  induction l with
  | nil => rfl
  | cons x xs ih =>
    simp only [sortRanked, firstMinByRank]
    cases hs : sortRanked key xs with
    | nil =>
      have h0 : firstMinByRank key xs = none := by rw [← ih, hs]; rfl
      rw [h0]
      rfl
    | cons y ys =>
      have h0 : firstMinByRank key xs = some y := by rw [← ih, hs]; rfl
      rw [h0]
      simp only [insertRanked]
      split <;> rfl

theorem labelOf_bullish_iff (b : ℚ) : labelOf b = "Bullish" ↔ 60 ≤ b := by
  unfold labelOf
  split_ifs with h1 h2
  · simpa using h1
  · constructor
    · intro hc; exact absurd hc (by decide)
    · intro hc; exact absurd hc h1
  · constructor
    · intro hc; exact absurd hc (by decide)
    · intro hc; exact absurd hc h1

theorem labelOf_bearish_iff (b : ℚ) : labelOf b = "Bearish" ↔ b ≤ 40 := by
  unfold labelOf
  split_ifs with h1 h2
  · constructor
    · intro hc; exact absurd hc (by decide)
    · intro hc; linarith
  · simpa using h2
  · constructor
    · intro hc; exact absurd hc (by decide)
    · intro hc; exact absurd hc h2

theorem labelOf_neutral_iff (b : ℚ) : labelOf b = "Neutral" ↔ 40 < b ∧ b < 60 := by
  unfold labelOf
  split_ifs with h1 h2
  · constructor
    · intro hc; exact absurd hc (by decide)
    · intro hc; linarith [hc.2]
  · constructor
    · intro hc; exact absurd hc (by decide)
    · intro hc; linarith [hc.1]
  · push_neg at h1 h2
    exact ⟨fun _ => ⟨h2, h1⟩, fun _ => rfl⟩

/-- The source's flow override (membership in a four-element list with a
nested jumbo test) computes the same adjustment as the spec's three-way case
split. -/
theorem flowOverride_eq_spec (p : ℚ) (s : String) :
    flowOverride p s = flowOverrideSpec p s := by
  unfold flowOverride flowOverrideSpec
  by_cases hj : s = "TRANSAKSI JUMBO"
  · subst hj
    rw [if_pos (show ("TRANSAKSI JUMBO" : String) ∈
        ["SMART MONEY MASUK", "AKUMULASI SENYAP", "DUKUNGAN INSTITUSI", "TRANSAKSI JUMBO"]
        by decide), if_pos rfl, if_pos rfl]
  · by_cases hb : s ∈ ["SMART MONEY MASUK", "AKUMULASI SENYAP", "DUKUNGAN INSTITUSI", "TRANSAKSI JUMBO"]
    · have h3 : s = "SMART MONEY MASUK" ∨ s = "AKUMULASI SENYAP" ∨ s = "DUKUNGAN INSTITUSI" := by
        simp only [List.mem_cons, List.not_mem_nil, or_false] at hb
        rcases hb with h | h | h | h
        · exact Or.inl h
        · exact Or.inr (Or.inl h)
        · exact Or.inr (Or.inr h)
        · exact absurd h hj
      rw [if_pos hb, if_neg hj, if_neg hj, if_pos h3]
    · by_cases hbear : s ∈ ["KAPITULASI (PANIC)", "WAIT AND SEE", "DANA BESAR KELUAR", "SMART MONEY KELUAR"]
      · have h4 : s = "KAPITULASI (PANIC)" ∨ s = "WAIT AND SEE" ∨
            s = "DANA BESAR KELUAR" ∨ s = "SMART MONEY KELUAR" := by
          simpa only [List.mem_cons, List.not_mem_nil, or_false] using hbear
        have h3n : ¬(s = "SMART MONEY MASUK" ∨ s = "AKUMULASI SENYAP" ∨ s = "DUKUNGAN INSTITUSI") := by
          intro h3
          exact hb (by simp only [List.mem_cons, List.not_mem_nil, or_false]; tauto)
        rw [if_neg hb, if_pos hbear, if_neg hj, if_neg h3n, if_pos h4]
      · have h4n : ¬(s = "KAPITULASI (PANIC)" ∨ s = "WAIT AND SEE" ∨
            s = "DANA BESAR KELUAR" ∨ s = "SMART MONEY KELUAR") := by
          intro h4
          exact hbear (by simp only [List.mem_cons, List.not_mem_nil, or_false]; tauto)
        have h3n : ¬(s = "SMART MONEY MASUK" ∨ s = "AKUMULASI SENYAP" ∨ s = "DUKUNGAN INSTITUSI") := by
          intro h3
          exact hb (by simp only [List.mem_cons, List.not_mem_nil, or_false]; tauto)
        rw [if_neg hb, if_neg hbear, if_neg hj, if_neg h3n, if_neg h4n]

/-! ## Claim theorems -/

/-- Claim C3: for every baseline bullish probability in `[0, 100]`, every
group status and every catalyst flag, the blender computes its result exactly
by the spec's steps: the flow override (+20 with floor 65 for the bullish
statuses, +25 with floor 70 for jumbo transaction, −20 with cap 40 for the
bearish statuses), then the catalyst floor `max(prob_up, 85)`, then the clamp
to `[5, 98]`, then the `≥60 / ≤40` label thresholds. -/
theorem claim3_blender_follows_spec (p : ℚ) (s : String) (c : Bool)
    (h0 : 0 ≤ p) (h1 : p ≤ 100) :
    blend_sentiment p s c = blendSentimentSpec p s c := by
  unfold blend_sentiment blendSentimentSpec labelOf
  rw [flowOverride_eq_spec]

theorem claim3_witness :
    (0 : ℚ) ≤ 50 ∧ (50 : ℚ) ≤ 100 ∧
    blend_sentiment 50 "WAIT AND SEE" false = blendSentimentSpec 50 "WAIT AND SEE" false :=
  ⟨by norm_num, by norm_num,
   claim3_blender_follows_spec 50 "WAIT AND SEE" false (by norm_num) (by norm_num)⟩

/-- Claim C5: for all valid inputs the blended percentages sum to exactly 100
and the label is consistent with the bullish percentage: `"Bullish"` iff
`bullish_pct ≥ 60`, `"Bearish"` iff `bullish_pct ≤ 40`, `"Neutral"`
otherwise. -/
theorem claim5_percentages_and_label (p : ℚ) (s : String) (c : Bool)
    (h0 : 0 ≤ p) (h1 : p ≤ 100) :
    (blend_sentiment p s c).bullish_pct + (blend_sentiment p s c).bearish_pct = 100 ∧
    ((blend_sentiment p s c).label = "Bullish" ↔ 60 ≤ (blend_sentiment p s c).bullish_pct) ∧
    ((blend_sentiment p s c).label = "Bearish" ↔ (blend_sentiment p s c).bullish_pct ≤ 40) ∧
    ((blend_sentiment p s c).label = "Neutral" ↔
      40 < (blend_sentiment p s c).bullish_pct ∧ (blend_sentiment p s c).bullish_pct < 60) := by
  have hbe : (blend_sentiment p s c).bearish_pct = 100 - (blend_sentiment p s c).bullish_pct := rfl
  have hl : (blend_sentiment p s c).label = labelOf ((blend_sentiment p s c).bullish_pct) := rfl
  refine ⟨by rw [hbe]; ring, ?_, ?_, ?_⟩
  · rw [hl]; exact labelOf_bullish_iff _
  · rw [hl]; exact labelOf_bearish_iff _
  · rw [hl]; exact labelOf_neutral_iff _

theorem claim5_witness :
    (0 : ℚ) ≤ 30 ∧ (30 : ℚ) ≤ 100 ∧
    ((blend_sentiment 30 "KAPITULASI (PANIC)" false).bullish_pct +
      (blend_sentiment 30 "KAPITULASI (PANIC)" false).bearish_pct = 100 ∧
    ((blend_sentiment 30 "KAPITULASI (PANIC)" false).label = "Bullish" ↔
      60 ≤ (blend_sentiment 30 "KAPITULASI (PANIC)" false).bullish_pct) ∧
    ((blend_sentiment 30 "KAPITULASI (PANIC)" false).label = "Bearish" ↔
      (blend_sentiment 30 "KAPITULASI (PANIC)" false).bullish_pct ≤ 40) ∧
    ((blend_sentiment 30 "KAPITULASI (PANIC)" false).label = "Neutral" ↔
      40 < (blend_sentiment 30 "KAPITULASI (PANIC)" false).bullish_pct ∧
      (blend_sentiment 30 "KAPITULASI (PANIC)" false).bullish_pct < 60)) :=
  ⟨by norm_num, by norm_num,
   claim5_percentages_and_label 30 "KAPITULASI (PANIC)" false (by norm_num) (by norm_num)⟩

/-- Claim C10: whenever the group status handed to the blender is one of the
four bullish-override statuses, the final label is `"Bullish"` and the bullish
percentage is at least 65: the override floors the probability at 65 (70 for
jumbo transaction), the catalyst floor can only raise it, and the clamp to
`[5, 98]` preserves any value in `[65, 98]`. -/
theorem claim10_bullish_override_forces_bullish (p : ℚ) (s : String) (c : Bool)
    (h0 : 0 ≤ p) (h1 : p ≤ 100)
    (hs : s ∈ ["SMART MONEY MASUK", "AKUMULASI SENYAP", "DUKUNGAN INSTITUSI", "TRANSAKSI JUMBO"]) :
    (blend_sentiment p s c).label = "Bullish" ∧ 65 ≤ (blend_sentiment p s c).bullish_pct := by
  have hp1 : 65 ≤ flowOverride p s := by
    unfold flowOverride
    rw [if_pos hs]
    split
    · exact le_trans (by norm_num) (le_max_right (p + 25) 70)
    · exact le_max_right (p + 20) 65
  have hp2 : 65 ≤ (if c then max (flowOverride p s) 85 else flowOverride p s) := by
    split
    · exact le_trans hp1 (le_max_left _ _)
    · exact hp1
  have hB : 65 ≤ (blend_sentiment p s c).bullish_pct := by
    have hval : (blend_sentiment p s c).bullish_pct =
        min (max (if c then max (flowOverride p s) 85 else flowOverride p s) 5) 98 := rfl
    rw [hval]
    exact le_min (le_trans hp2 (le_max_left _ _)) (by norm_num)
  have hl : (blend_sentiment p s c).label = labelOf ((blend_sentiment p s c).bullish_pct) := rfl
  exact ⟨by rw [hl]; exact (labelOf_bullish_iff _).mpr (by linarith), hB⟩

theorem claim10_witness :
    ((0 : ℚ) ≤ 10 ∧ (10 : ℚ) ≤ 100 ∧
      "AKUMULASI SENYAP" ∈
        ["SMART MONEY MASUK", "AKUMULASI SENYAP", "DUKUNGAN INSTITUSI", "TRANSAKSI JUMBO"]) ∧
    (blend_sentiment 10 "AKUMULASI SENYAP" false).label = "Bullish" ∧
    65 ≤ (blend_sentiment 10 "AKUMULASI SENYAP" false).bullish_pct :=
  ⟨⟨by norm_num, by norm_num, by decide⟩,
   claim10_bullish_override_forces_bullish 10 "AKUMULASI SENYAP" false
     (by norm_num) (by norm_num) (by decide)⟩

/-- Claim C1: on the concrete inputs `percent_change = 8.0`,
`volume_ratio = 2.0` (any `vwap_deviation`) the Brokerage Flow Classifier
returns phase `"MEGALODON MARKUP"` with confidence 92 and sentiment
`"EXTREME BULLISH"`, whale status `"MEGALODON / WHALE ENTRY"` and retail
status `"RITEL FOMO"`. -/
theorem claim1_megalodon_example (vwap : ℚ) :
    (detect_brokerage_flow 8.0 2.0 vwap).phase = "MEGALODON MARKUP" ∧
    (detect_brokerage_flow 8.0 2.0 vwap).overall_sentiment = "EXTREME BULLISH" ∧
    (detect_brokerage_flow 8.0 2.0 vwap).confidence = 92 ∧
    (detect_brokerage_flow 8.0 2.0 vwap).whale.status = "MEGALODON / WHALE ENTRY" ∧
    (detect_brokerage_flow 8.0 2.0 vwap).retail.status = "RITEL FOMO" :=
  ⟨rfl, rfl, rfl, rfl, rfl⟩

/-- Claim C6: the capitulation branch of `detect_brokerage_flow` is
unreachable — any input satisfying rule 7 (`change < −4 ∧ vol_ratio > 1.7`)
already satisfied the earlier rule 6 (`change < −1.5 ∧ vol_ratio > 1.5`), so
no input produces phase `"CAPITULATION / MARKDOWN"` or sentiment
`"EXTREME BEARISH"`. -/
theorem claim6_capitulation_unreachable (c v w : ℚ) :
    (detect_brokerage_flow c v w).phase ≠ "CAPITULATION / MARKDOWN" ∧
    (detect_brokerage_flow c v w).overall_sentiment ≠ "EXTREME BEARISH" := by
  have hph : (detect_brokerage_flow c v w).phase = (phaseDetect c v).phase := rfl
  have hov : (detect_brokerage_flow c v w).overall_sentiment = (phaseDetect c v).overall := rfl
  rw [hph, hov]
  unfold phaseDetect
  split_ifs with h1 h2 h3 h4 h5 h6 h7 <;> dsimp only <;>
    first
      | exact ⟨by decide, by decide⟩
      | exact absurd ⟨by linarith [h7.1], by linarith [h7.2]⟩ h6

/-- Claim C7: `detect_brokerage_flow` never reads its `vwap_deviation`
argument — any two deviation values give identical outputs in every field. -/
theorem claim7_vwap_independent (c v v1 v2 : ℚ) :
    detect_brokerage_flow c v v1 = detect_brokerage_flow c v v2 := rfl

/-- Claim C4: with the all-neutral inputs (`expected_return = 0`,
`volume_ratio = 1`, `rsi = 50`, `foreign_net_buy = 0`, `sentiment_score = 0`,
`atr_ratio = 1`) no rule fires and `generate_quant_warning` returns exactly
the single NEUTRAL fallback entry. -/
theorem claim4_neutral_inputs_neutral_warning :
    generate_quant_warning 0 1.0 50 0 0 1.0 [] = neutralWarning ∧
    quantDetails 0 1.0 50 0 0 1.0 [] = [] := by
  exact ⟨rfl, rfl⟩

/-- Claim C2: whenever at least one warning rule fires, the main entry chosen
by `generate_quant_warning` is exactly the first-appended entry of minimal
severity rank (danger 0 < warning 1 < success 2 < primary 3; the stable sort
keeps encounter order on ties).  In particular, for `expected_return = 45`
and `volume_ratio = 0.5` both the danger-coloured return-band entry and the
danger-coloured low-volume entry fire, and the main entry is the return-band
entry, the one appended first. -/
theorem claim2_main_entry_minimal (er vr rsi fnb ss ar : ℚ)
    (ba : List (String × List String))
    (h : quantDetails er vr rsi fnb ss ar ba ≠ []) :
    some (mainEntryOf (generate_quant_warning er vr rsi fnb ss ar ba)) =
      firstMinByRank priorityOf (quantDetails er vr rsi fnb ss ar ba) ∧
    mainEntryOf (generate_quant_warning er vr rsi fnb ss ar ba) ∈
      quantDetails er vr rsi fnb ss ar ba ∧
    (∀ e ∈ quantDetails er vr rsi fnb ss ar ba,
      priorityOf (mainEntryOf (generate_quant_warning er vr rsi fnb ss ar ba)) ≤ priorityOf e) ∧
    (quantDetails 45 0.5 50 0 0 1.0 []).map (fun e => (e.level, e.color)) =
      [("EXTREME BULLISH", "danger"), ("LOW VOLUME MOVE", "danger")] ∧
    (generate_quant_warning 45 0.5 50 0 0 1.0 []).level = "EXTREME BULLISH" ∧
    (generate_quant_warning 45 0.5 50 0 0 1.0 []).message =
      "Waspadai Bull Trap ‚Äì potensi pump & dump tinggi" := by
  have hne : (quantDetails er vr rsi fnb ss ar ba).isEmpty = false := by
    simpa [List.isEmpty_iff] using h
  obtain ⟨m, rest, hs⟩ : ∃ m rest,
      sortRanked priorityOf (quantDetails er vr rsi fnb ss ar ba) = m :: rest := by
    cases hso : sortRanked priorityOf (quantDetails er vr rsi fnb ss ar ba) with
    | nil => exact absurd ((sortRanked_eq_nil_iff _ _).mp hso) h
    | cons m rest => exact ⟨m, rest, rfl⟩
  have hmain : some (mainEntryOf (generate_quant_warning er vr rsi fnb ss ar ba)) =
      firstMinByRank priorityOf (quantDetails er vr rsi fnb ss ar ba) := by
    rw [← head?_sortRanked, hs]
    show some (mainEntryOf (generate_quant_warning er vr rsi fnb ss ar ba)) = some m
    unfold generate_quant_warning
    rw [if_neg (by simp [hne]), hs]
    rfl
  exact ⟨hmain, firstMinByRank_mem _ _ _ hmain.symm,
    fun e he => firstMinByRank_le _ _ _ hmain.symm e he,
    by decide, by decide, by decide⟩

theorem claim2_witness :
    quantDetails 45 0.5 50 0 0 1.0 [] ≠ [] ∧
    some (mainEntryOf (generate_quant_warning 45 0.5 50 0 0 1.0 [])) =
      firstMinByRank priorityOf (quantDetails 45 0.5 50 0 0 1.0 []) :=
  ⟨by decide, (claim2_main_entry_minimal 45 0.5 50 0 0 1.0 [] (by decide)).1⟩

/-- Claim C8 counterexample: the claim states that a bar sequence whose last
14 deltas contain at least one gain and no losses yields RSI 100.  On the
concrete sequence of thirteen flat closes followed by one gain the window
does contain a gain and no loss, yet the code computes RSI 50: the zero loss
mean is replaced by NaN (`loss.replace(0, np.nan)`), `rs` becomes NaN, and
`(100/(1+rs)).fillna(50)` turns the RSI into `100 − 50 = 50`, not 100. -/
theorem claim8_counterexample :
    (∃ d ∈ (pct_change rsiGainOnlyCloses).drop
      ((pct_change rsiGainOnlyCloses).length - 14), d > 0) ∧
    (∀ d ∈ (pct_change rsiGainOnlyCloses).drop
      ((pct_change rsiGainOnlyCloses).length - 14), ¬(d < 0)) ∧
    rsi_last rsiGainOnlyCloses = 50 ∧
    rsi_last rsiGainOnlyCloses ≠ 100 := by decide

/-- Claim C8 amended: in the source's RSI computation, when the 14-period
loss mean is zero — in particular whenever the last 14 deltas contain no
losses, gains or not — the NaN introduced by `loss.replace(0, np.nan)`
propagates through `rs` and `(100/(1+rs)).fillna(50)` makes the computed RSI
exactly 50 (never 100). -/
theorem claim8_amended_no_losses_gives_50 (closes : List ℚ)
    (hlen : 14 ≤ (pct_change closes).length)
    (hnoloss : ∀ d ∈ (pct_change closes).drop ((pct_change closes).length - 14),
      ¬(d < 0)) :
    rsi_last closes = 50 := by
  unfold rsi_last
  rw [if_neg (by omega)]
  have hzero : (((pct_change closes).drop ((pct_change closes).length - 14)).map
      (fun d => if d < 0 then -d else 0)).sum = (0 : ℚ) := by
    apply List.sum_eq_zero
    intro x hx
    simp only [List.mem_map] at hx
    obtain ⟨d, hd, rfl⟩ := hx
    rw [if_neg (hnoloss d hd)]
  dsimp only
  rw [hzero]
  norm_num

theorem claim8_witness :
    14 ≤ (pct_change rsiGainOnlyCloses).length ∧
    (∀ d ∈ (pct_change rsiGainOnlyCloses).drop
      ((pct_change rsiGainOnlyCloses).length - 14), ¬(d < 0)) ∧
    rsi_last rsiGainOnlyCloses = 50 :=
  ⟨by decide, by decide,
   claim8_amended_no_losses_gives_50 rsiGainOnlyCloses (by decide) (by decide)⟩

/-- Claim C9: for every headline list, if any of the up-to-10 most recent
scanned titles contains (case-insensitive substring) one of the high-impact
keywords, then the news sentiment score is at least 85, whatever the
bullish/bearish keyword counts are. -/
theorem claim9_high_impact_forces_85 (titles : List String)
    (h : ∃ t ∈ titles.take 10, ∃ k ∈ highImpactKeywords, kwInTitle k t = true) :
    85 ≤ (newsSentimentScore titles).1 := by
  have hhi : (titles.take 10).any
      (fun t => highImpactKeywords.any (fun k => kwInTitle k t)) = true := by
    rw [List.any_eq_true]
    obtain ⟨t, ht, k, hk, hkt⟩ := h
    exact ⟨t, ht, by rw [List.any_eq_true]; exact ⟨k, hk, hkt⟩⟩
  unfold newsSentimentScore
  dsimp only
  rw [if_pos hhi]
  exact le_max_right _ _

theorem claim9_witness :
    (∃ t ∈ (["Dua emiten umumkan rencana MERGER strategis"] : List String).take 10,
      ∃ k ∈ highImpactKeywords, kwInTitle k t = true) ∧
    85 ≤ (newsSentimentScore ["Dua emiten umumkan rencana MERGER strategis"]).1 :=
  ⟨by decide, claim9_high_impact_forces_85 _ (by decide)⟩

end StockDashboard
